import Mathlib

/-!
Shallow embedding of `ethers-contract/src/factory.rs` (the contract
deployment factory and the `Deployer` submit-and-confirm protocol),
together with theorems settling the specification claims about it.

Modelling conventions:
* bytes are `Nat` and byte strings are `List Nat`;
* addresses and transaction hashes are `Nat`;
* `Duration` values are `Nat` milliseconds;
* Rust `Result<T, E>` is `Except E T`; the provider errors carried by
  the external client are collapsed to `Unit` since only success versus
  failure is observable in this module;
* the external signing/RPC client is a record of response functions; the
  receipt query takes an extra attempt-index argument because the ledger
  is eventually consistent, so successive queries for the same hash may
  answer differently — the index is the position of the query in the
  polling sequence;
* the potentially unbounded polling loop of `Deployer::send` is given
  explicit fuel; `none` means the loop is still running after `fuel`
  iterations (so a result that is `none` for every fuel is a
  non-terminating run);
* `send` also returns the trace of observable effects (the submission,
  each receipt query, each sleep with its duration) so that claims about
  the sequence of queries and sleeps can be stated.
-/

/-- Poll for tx confirmation once every 7 seconds:
`const POLL_INTERVAL: u64 = 7000;` (factory.rs line 15). -/
def POLL_INTERVAL : Nat := 7000

/-- Constructor argument tokens (`ethers_core::abi::Token`); their internal
structure is irrelevant to this module, so they are modelled as `Nat`. -/
abbrev Token := Nat

/-- On-chain addresses (`ethers_core::types::Address`), modelled as `Nat`. -/
abbrev Address := Nat

/-- Modelled from the spec: `ethers_core::abi::Constructor` and its
`encode_input` are part of this repository but not under the provided
sources. Per §6 of the spec the ABI exposes
`encodeConstructorInput(bytecode, tokens) -> Result<bytes, EncodingError>`
and per §4.1/§8 a successful encoding yields the bytecode concatenated
with the canonical encoding of the tokens. The canonical token encoder
(type checking included) is therefore kept abstract as a field
`encodeTokens`, returning `none` exactly when encoding fails. -/
structure Constructor where
  encodeTokens : List Token → Option (List Nat)

/-- Modelled from the spec: `Constructor::encode_input(code, tokens)`
returns `code ++ encoding(tokens)` on success and an encoding error
otherwise (spec §4.1, §6, §8). -/
def Constructor.encode_input (c : Constructor) (code : List Nat)
    (tokens : List Token) : Except Unit (List Nat) :=
  match c.encodeTokens tokens with
  | some enc => Except.ok (code ++ enc)
  | none => Except.error ()

/-- `ethers_core::abi::Abi`, restricted to the only feature this module
reads: the optional constructor descriptor. -/
structure Abi where
  ctor : Option Constructor

/-- `Abi::constructor()` — returns the optional constructor descriptor. -/
def Abi.constructor (a : Abi) : Option Constructor :=
  a.ctor

/-- `ethers_core::types::TransactionRequest`. `deploy` sets only `to` and
`data`; the remaining fields are filled by `..Default::default()`. -/
structure TransactionRequest where
  from_ : Option Address
  «to» : Option Address
  gas : Option Nat
  gas_price : Option Nat
  value : Option Nat
  data : Option (List Nat)
  nonce : Option Nat
  deriving DecidableEq

/-- `TransactionRequest::default()`: every field absent. -/
def TransactionRequest.default : TransactionRequest :=
  { from_ := none, «to» := none, gas := none, gas_price := none,
    value := none, data := none, nonce := none }

/-- A transaction receipt (`ethers_core::types::TransactionReceipt`),
restricted to the only field this module reads: the optional
contract-creation address. -/
structure TransactionReceipt where
  contract_address : Option Address
  deriving DecidableEq

/-- The external signing/RPC client (`ethers_signers::Client`), modelled
by its two capabilities used here (spec §6). `send_transaction` answers a
submission with a transaction hash or an error. `get_transaction_receipt`
is additionally indexed by the attempt number of the query, modelling the
eventually consistent ledger: in this version of the library the call
returns `Result<TransactionReceipt, _>`, and both a transport error and
"no receipt yet" surface as the error case. -/
structure Client where
  send_transaction : TransactionRequest → Except Unit Nat
  get_transaction_receipt : Nat → Nat → Except Unit TransactionReceipt

/-- `ethers_contract::ContractError`, restricted to the variants reachable
from this module: `ConstructorError` (constructor arguments supplied but
the ABI declares no constructor), `ContractNotDeployed` (a receipt was
obtained without a contract address), `AbiError` (constructor-argument
encoding failed, propagated by `?` from `encode_input`), and
`ClientError` (the client failed the submission, propagated by `?`). -/
inductive ContractError where
  | ConstructorError
  | ContractNotDeployed
  | AbiError
  | ClientError
  deriving DecidableEq

/-- A deployed contract handle (`ethers_contract::Contract`): the on-chain
address together with shared references to the ABI and the client. -/
structure Contract where
  address : Address
  abi : Abi
  client : Client

/-- `Contract::new(address, abi, client)`. -/
def Contract.new (address : Address) (abi : Abi) (client : Client) :
    Contract :=
  { address := address, abi := abi, client := client }

/-- `ethers_contract::Deployer` (factory.rs lines 19-25): shared ABI and
client references, the prepared deployment transaction, the configured
confirmation count `confs`, and the configured `poll_interval`
(milliseconds). The Rust field accessors `abi()` and `client()` are the
Lean field projections. -/
structure Deployer where
  abi : Abi
  client : Client
  tx : TransactionRequest
  confs : Nat
  poll_interval : Nat

/-- `Deployer::poll_interval(interval)` (factory.rs lines 34-37): builder
setter replacing the configured poll interval. Named `with_poll_interval`
because the Lean field projection already takes the Rust method name. -/
def Deployer.with_poll_interval (d : Deployer) (interval : Nat) : Deployer :=
  { d with poll_interval := interval }

/-- `Deployer::confirmations(confirmations)` (factory.rs lines 40-43):
builder setter replacing the configured confirmation count. -/
def Deployer.with_confirmations (d : Deployer) (confirmations : Nat) :
    Deployer :=
  { d with confs := confirmations }

/-- One observable effect of `Deployer::send`: the transaction submission,
one receipt query, or one sleep of the given number of milliseconds. -/
inductive SendEvent where
  | submit (tx : TransactionRequest)
  | query
  | sleep (ms : Nat)
  deriving DecidableEq

/-- The receipt-polling loop of `Deployer::send` (factory.rs lines 52-63):
query the client for a receipt; on success inspect `contract_address`
(`ok_or(ContractError::ContractNotDeployed)?`) and stop; on failure sleep
`Duration::from_millis(POLL_INTERVAL)` and query again. `attempt` is the
index of the next query, `fuel` bounds the number of iterations unrolled;
`none` means the loop is still running. The returned steps are the traced
queries and sleeps, the returned value the address or the error. -/
def pollForReceipt (client : Client) (tx_hash : Nat) :
    (attempt : Nat) → (fuel : Nat) →
    Option (List SendEvent × Except ContractError Address)
  | _, 0 => none
  | attempt, fuel + 1 =>
    match client.get_transaction_receipt tx_hash attempt with
    | Except.ok receipt =>
      match receipt.contract_address with
      | some addr => some ([SendEvent.query], Except.ok addr)
      | none =>
        some ([SendEvent.query], Except.error ContractError.ContractNotDeployed)
    | Except.error _ =>
      match pollForReceipt client tx_hash (attempt + 1) fuel with
      | some (steps, r) =>
        some (SendEvent.query :: SendEvent.sleep POLL_INTERVAL :: steps, r)
      | none => none

/-- `Deployer::send()` (factory.rs lines 48-66): submit the transaction
(`?` surfaces a client error immediately), then run the polling loop and,
on obtaining an address, return `Contract::new(address, abi, client)`.
The trace records the submission followed by the loop events. -/
def Deployer.send (d : Deployer) (fuel : Nat) :
    Option (List SendEvent × Except ContractError Contract) :=
  match d.client.send_transaction d.tx with
  | Except.error _ =>
    some ([SendEvent.submit d.tx], Except.error ContractError.ClientError)
  | Except.ok tx_hash =>
    match pollForReceipt d.client tx_hash 0 fuel with
    | none => none
    | some (steps, Except.error e) =>
      some (SendEvent.submit d.tx :: steps, Except.error e)
    | some (steps, Except.ok address) =>
      some (SendEvent.submit d.tx :: steps,
        Except.ok (Contract.new address d.abi d.client))

/-- `ethers_contract::ContractFactory` (factory.rs lines 123-127): shared
client, ABI and bytecode references. -/
structure ContractFactory where
  client : Client
  abi : Abi
  bytecode : List Nat

/-- `ContractFactory::new(abi, bytecode, client)`. -/
def ContractFactory.new (abi : Abi) (bytecode : List Nat) (client : Client) :
    ContractFactory :=
  { client := client, abi := abi, bytecode := bytecode }

/-- The tail of `ContractFactory::deploy` (factory.rs lines 168-181):
given the computed payload `data`, build the deployment transaction
`TransactionRequest { to: None, data: Some(data), ..Default::default() }`
and the `Deployer` with the defaults `confs = 1` and
`poll_interval = POLL_INTERVAL` milliseconds. -/
def deployerWith (f : ContractFactory) (data : List Nat) : Deployer :=
  { abi := f.abi, client := f.client,
    tx := { TransactionRequest.default with «to» := none, data := some data },
    confs := 1,
    poll_interval := POLL_INTERVAL }

/-- `ContractFactory::deploy(constructor_args)` (factory.rs lines 152-182).
Tokenization (`constructor_args.into_tokens()`) is the external
`Tokenize` trait, so the embedding receives the token list directly.
The match on `(abi.constructor(), params.is_empty())` is verbatim:
no constructor and arguments supplied fails with `ConstructorError`;
no constructor and no arguments uses the bytecode unchanged; a
constructor present encodes via `encode_input`, whose failure is
propagated by `?` as an `AbiError`. -/
def ContractFactory.deploy (f : ContractFactory) (params : List Token) :
    Except ContractError Deployer :=
  match f.abi.constructor, params.isEmpty with
  | none, false => Except.error ContractError.ConstructorError
  | none, true => Except.ok (deployerWith f f.bytecode)
  | some c, _ =>
    match c.encode_input f.bytecode params with
    | Except.ok data => Except.ok (deployerWith f data)
    | Except.error _ => Except.error ContractError.AbiError

/-- A builder configuration call on a `Deployer`: one application of the
`poll_interval` or `confirmations` setter. -/
inductive BuilderOp where
  | setPollInterval (interval : Nat)
  | setConfirmations (count : Nat)

/-- Applies a sequence of builder configuration calls to a `Deployer`,
left to right. -/
def applyOps (d : Deployer) : List BuilderOp → Deployer
  | [] => d
  | BuilderOp.setPollInterval i :: ops => applyOps (d.with_poll_interval i) ops
  | BuilderOp.setConfirmations n :: ops => applyOps (d.with_confirmations n) ops

/-- The trace produced by the polling loop when the first `k` queries fail
and query `k` succeeds: `k + 1` queries with a `POLL_INTERVAL` sleep
between each consecutive pair. -/
def pollTrace : Nat → List SendEvent
  | 0 => [SendEvent.query]
  | k + 1 => SendEvent.query :: SendEvent.sleep POLL_INTERVAL :: pollTrace k

/-- Concrete client for witnesses: submission yields hash 1; the receipt
query fails on attempt 0 and answers a receipt with contract address 5
from attempt 1 on. -/
def exClient : Client :=
  { send_transaction := fun _ => Except.ok 1,
    get_transaction_receipt := fun _ attempt =>
      if attempt = 0 then Except.error ()
      else Except.ok { contract_address := some 5 } }

/-- Concrete client for witnesses: like `exClient`, but the receipt
obtained on attempt 1 carries no contract address. -/
def exClientNoAddr : Client :=
  { send_transaction := fun _ => Except.ok 1,
    get_transaction_receipt := fun _ attempt =>
      if attempt = 0 then Except.error ()
      else Except.ok { contract_address := none } }

/-- Concrete client for witnesses: every receipt query fails. -/
def exClientNever : Client :=
  { send_transaction := fun _ => Except.ok 1,
    get_transaction_receipt := fun _ _ => Except.error () }

/-- Concrete ABI without a constructor descriptor. -/
def exAbi : Abi := { ctor := none }

/-- Concrete constructor descriptor whose token encoding is the identity
on the token list (every token list encodes successfully). -/
def exConstructor : Constructor := { encodeTokens := fun tokens => some tokens }

/-- Concrete ABI with the constructor descriptor `exConstructor`. -/
def exAbiCtor : Abi := { ctor := some exConstructor }

/-- Concrete factory: no constructor, bytecode `[170]` (0xAA). -/
def exFactory : ContractFactory := ContractFactory.new exAbi [170] exClient

/-- Concrete factory: constructor `exConstructor`, bytecode `[170]`. -/
def exFactoryCtor : ContractFactory := ContractFactory.new exAbiCtor [170] exClient

/-- The deployment transaction built from bytecode `[170]` with no
constructor arguments. -/
def exTx : TransactionRequest :=
  { TransactionRequest.default with «to» := none, data := some [170] }

/-- The deployer produced by `exFactory.deploy []`. -/
def exDeployer : Deployer :=
  { abi := exAbi, client := exClient, tx := exTx, confs := 1,
    poll_interval := POLL_INTERVAL }

/-- Like `exDeployer` but polling through `exClientNoAddr`. -/
def exDeployerNoAddr : Deployer :=
  { exDeployer with client := exClientNoAddr }

/-- Like `exDeployer` but polling through `exClientNever`. -/
def exDeployerNever : Deployer :=
  { exDeployer with client := exClientNever }

/-- Every sleep event in a `pollTrace` lasts `POLL_INTERVAL` milliseconds. -/
theorem pollTrace_sleep_eq (k ms : Nat)
    (h : SendEvent.sleep ms ∈ pollTrace k) : ms = POLL_INTERVAL := by
  induction k with
  | zero => simp [pollTrace] at h
  | succ k ih =>
    simp only [pollTrace, List.mem_cons] at h
    rcases h with h | h | h
    · exact absurd h (by simp)
    · exact (SendEvent.sleep.injEq .. ▸ h)
    · exact ih h

/-- A `pollTrace` contains no submission event. -/
theorem pollTrace_not_submit (k : Nat) (tx : TransactionRequest) :
    SendEvent.submit tx ∉ pollTrace k := by
  induction k with
  | zero => simp [pollTrace]
  | succ k ih => simp [pollTrace, ih]

/-- Evaluation of the polling loop when the first `k` queries (from
`attempt` on) fail and query `k` succeeds with `receipt`: the loop runs
exactly `k + 1` queries with a sleep between each pair, and the outcome
is decided by the contract-address field of `receipt`. -/
theorem pollForReceipt_first_success (client : Client) (tx_hash : Nat)
    (k : Nat) (receipt : TransactionReceipt) :
    ∀ (attempt fuel : Nat),
    (∀ j, j < k →
      client.get_transaction_receipt tx_hash (attempt + j) = Except.error ()) →
    client.get_transaction_receipt tx_hash (attempt + k) = Except.ok receipt →
    k < fuel →
    pollForReceipt client tx_hash attempt fuel =
      some (pollTrace k,
        match receipt.contract_address with
        | some addr => Except.ok addr
        | none => Except.error ContractError.ContractNotDeployed) := by
  induction k with
  | zero =>
    intro attempt fuel _ hok hfuel
    match fuel, hfuel with
    | fuel + 1, _ =>
      rw [Nat.add_zero] at hok
      simp only [pollForReceipt, hok]
      cases receipt.contract_address <;> rfl
  | succ k ih =>
    intro attempt fuel herr hok hfuel
    match fuel, hfuel with
    | fuel + 1, hfuel =>
      have h0 : client.get_transaction_receipt tx_hash attempt = Except.error () := by
        have := herr 0 (Nat.succ_pos k)
        simpa using this
      have herr1 : ∀ j, j < k →
          client.get_transaction_receipt tx_hash (attempt + 1 + j) = Except.error () := by
        intro j hj
        have := herr (j + 1) (Nat.succ_lt_succ hj)
        simpa [Nat.add_comm, Nat.add_left_comm, Nat.add_assoc] using this
      have hok1 : client.get_transaction_receipt tx_hash (attempt + 1 + k) =
          Except.ok receipt := by
        simpa [Nat.add_comm, Nat.add_left_comm, Nat.add_assoc] using hok
      have hrec := ih (attempt + 1) fuel herr1 hok1 (Nat.lt_of_succ_lt_succ hfuel)
      simp only [pollForReceipt, h0, hrec]
      rfl

/-- If every receipt query fails, the polling loop never terminates: it
is still running after any number of iterations. -/
theorem pollForReceipt_all_errors (client : Client) (tx_hash : Nat)
    (herr : ∀ i, client.get_transaction_receipt tx_hash i = Except.error ()) :
    ∀ (fuel attempt : Nat), pollForReceipt client tx_hash attempt fuel = none := by
  intro fuel
  induction fuel with
  | zero => intro attempt; rfl
  | succ fuel ih =>
    intro attempt
    simp only [pollForReceipt, herr attempt, ih (attempt + 1)]

/-- Inversion of the polling loop: any terminating run consists of `k`
failing queries, each followed by a `POLL_INTERVAL` sleep, and a final
query that obtained a receipt; the result is the address of that receipt
or `ContractNotDeployed` when it carries none. -/
theorem pollForReceipt_inv (client : Client) (tx_hash : Nat) :
    ∀ (fuel attempt : Nat) (steps : List SendEvent)
      (r : Except ContractError Address),
    pollForReceipt client tx_hash attempt fuel = some (steps, r) →
    ∃ k receipt,
      (∀ j, j < k →
        client.get_transaction_receipt tx_hash (attempt + j) = Except.error ()) ∧
      client.get_transaction_receipt tx_hash (attempt + k) = Except.ok receipt ∧
      steps = pollTrace k ∧
      r = (match receipt.contract_address with
        | some addr => Except.ok addr
        | none => Except.error ContractError.ContractNotDeployed) := by
  intro fuel
  induction fuel with
  | zero => intro attempt steps r h; exact absurd h (by simp [pollForReceipt])
  | succ fuel ih =>
    intro attempt steps r h
    simp only [pollForReceipt] at h
    cases hq : client.get_transaction_receipt tx_hash attempt with
    | ok receipt =>
      rw [hq] at h
      refine ⟨0, receipt, ?_, by simpa using hq, ?_, ?_⟩
      · intro j hj; exact absurd hj (Nat.not_lt_zero j)
      · cases hca : receipt.contract_address <;>
          simp [hca, pollTrace] at h ⊢ <;> exact h.1.symm
      · cases hca : receipt.contract_address <;> simp [hca] at h ⊢ <;>
          exact h.2.symm
    | error e =>
      rw [hq] at h
      cases hrec : pollForReceipt client tx_hash (attempt + 1) fuel with
      | none => rw [hrec] at h; exact absurd h (by simp)
      | some p =>
        obtain ⟨steps1, r1⟩ := p
        rw [hrec] at h
        simp only [Option.some.injEq, Prod.mk.injEq] at h
        obtain ⟨hsteps, hr⟩ := h
        obtain ⟨k, receipt, herr1, hok1, hsteps1, hr1⟩ :=
          ih (attempt + 1) steps1 r1 hrec
        refine ⟨k + 1, receipt, ?_, ?_, ?_, ?_⟩
        · intro j hj
          match j, hj with
          | 0, _ => simpa using hq
          | j + 1, hj =>
            have := herr1 j (Nat.lt_of_succ_lt_succ hj)
            simpa [Nat.add_comm, Nat.add_left_comm, Nat.add_assoc] using this
        · simpa [Nat.add_comm, Nat.add_left_comm, Nat.add_assoc] using hok1
        · rw [← hsteps, hsteps1]; rfl
        · rw [← hr, hr1]

/-- Every successfully produced deployment transaction has an absent
recipient: `deploy` builds it with `to: None`. -/
theorem deploy_tx_to_none (f : ContractFactory) (params : List Token)
    (d : Deployer) (hd : f.deploy params = Except.ok d) :
    d.tx.«to» = none := by
  unfold ContractFactory.deploy at hd
  split at hd
  · exact absurd hd (by simp)
  · cases hd; rfl
  · split at hd
    · cases hd; rfl
    · exact absurd hd (by simp)

/-- Builder configuration calls never touch the transaction held by a
`Deployer`. -/
theorem applyOps_tx (ops : List BuilderOp) :
    ∀ (d : Deployer), (applyOps d ops).tx = d.tx := by
  induction ops with
  | nil => intro d; rfl
  | cons op ops ih =>
    intro d
    cases op with
    | setPollInterval i => exact ih (d.with_poll_interval i)
    | setConfirmations n => exact ih (d.with_confirmations n)

/-- The only submission event in a `send` trace carries the transaction
held by the `Deployer`. -/
theorem send_submit_eq (d : Deployer) (fuel : Nat) (steps : List SendEvent)
    (r : Except ContractError Contract) (tx : TransactionRequest)
    (hs : d.send fuel = some (steps, r))
    (hm : SendEvent.submit tx ∈ steps) : tx = d.tx := by
  unfold Deployer.send at hs
  cases hq : d.client.send_transaction d.tx with
  | error e =>
    rw [hq] at hs
    simp only [Option.some.injEq, Prod.mk.injEq] at hs
    rw [← hs.1] at hm
    simpa using hm
  | ok tx_hash =>
    rw [hq] at hs
    dsimp only at hs
    cases hrec : pollForReceipt d.client tx_hash 0 fuel with
    | none => rw [hrec] at hs; exact absurd hs (by simp)
    | some p =>
      obtain ⟨steps1, r1⟩ := p
      rw [hrec] at hs
      obtain ⟨k, receipt, -, -, hsteps1, -⟩ :=
        pollForReceipt_inv d.client tx_hash fuel 0 steps1 r1 hrec
      cases r1 with
      | error e =>
        simp only [Option.some.injEq, Prod.mk.injEq] at hs
        rw [← hs.1] at hm
        rcases List.mem_cons.mp hm with h | h
        · exact (SendEvent.submit.injEq .. ▸ h)
        · rw [hsteps1] at h
          exact absurd h (pollTrace_not_submit k tx)
      | ok address =>
        simp only [Option.some.injEq, Prod.mk.injEq] at hs
        rw [← hs.1] at hm
        rcases List.mem_cons.mp hm with h | h
        · exact (SendEvent.submit.injEq .. ▸ h)
        · rw [hsteps1] at h
          exact absurd h (pollTrace_not_submit k tx)

/-- Every sleep event in a `send` trace lasts `POLL_INTERVAL`
milliseconds. -/
theorem send_sleep_eq (d : Deployer) (fuel : Nat) (steps : List SendEvent)
    (r : Except ContractError Contract) (ms : Nat)
    (hs : d.send fuel = some (steps, r))
    (hm : SendEvent.sleep ms ∈ steps) : ms = POLL_INTERVAL := by
  unfold Deployer.send at hs
  cases hq : d.client.send_transaction d.tx with
  | error e =>
    rw [hq] at hs
    simp only [Option.some.injEq, Prod.mk.injEq] at hs
    rw [← hs.1] at hm
    simp at hm
  | ok tx_hash =>
    rw [hq] at hs
    dsimp only at hs
    cases hrec : pollForReceipt d.client tx_hash 0 fuel with
    | none => rw [hrec] at hs; exact absurd hs (by simp)
    | some p =>
      obtain ⟨steps1, r1⟩ := p
      rw [hrec] at hs
      obtain ⟨k, receipt, -, -, hsteps1, -⟩ :=
        pollForReceipt_inv d.client tx_hash fuel 0 steps1 r1 hrec
      cases r1 with
      | error e =>
        simp only [Option.some.injEq, Prod.mk.injEq] at hs
        rw [← hs.1] at hm
        rcases List.mem_cons.mp hm with h | h
        · exact absurd h (by simp)
        · rw [hsteps1] at h
          exact pollTrace_sleep_eq k ms h
      | ok address =>
        simp only [Option.some.injEq, Prod.mk.injEq] at hs
        rw [← hs.1] at hm
        rcases List.mem_cons.mp hm with h | h
        · exact absurd h (by simp)
        · rw [hsteps1] at h
          exact pollTrace_sleep_eq k ms h

/-- Claim C1: the claim says `send` sleeps the configured `poll_interval`
of the `Deployer` between consecutive receipt queries. The code instead
sleeps the constant `POLL_INTERVAL` (7000 ms) and never reads the
`poll_interval` field: a `Deployer` configured with a 10 ms interval
still sleeps 7000 ms between its two queries, contradicting the
documented purpose of the `poll_interval` setter. The query count and
the returned address behave as claimed; only the sleep duration
diverges. -/
theorem C1_send_ignores_configured_poll_interval :
    (exDeployer.with_poll_interval 10).poll_interval = 10 ∧
    ((exDeployer.with_poll_interval 10).send 2).map Prod.fst =
      some [SendEvent.submit exTx, SendEvent.query,
        SendEvent.sleep POLL_INTERVAL, SendEvent.query] ∧
    POLL_INTERVAL ≠ 10 :=
  ⟨rfl, rfl, by decide⟩

/-- Claim C2: for every ABI declaring a constructor and every argument
tuple whose tokenization encodes successfully against it, `deploy`
returns a `Deployer` whose transaction payload is the bytecode
concatenated with the ABI-encoded constructor input (with the default
configuration), and `deploy` is deterministic: re-running it on the same
inputs yields the identical result. -/
theorem C2_deploy_payload_with_constructor (f : ContractFactory)
    (c : Constructor) (params : List Token) (enc : List Nat)
    (habi : f.abi.constructor = some c)
    (henc : c.encodeTokens params = some enc) :
    f.deploy params = Except.ok (deployerWith f (f.bytecode ++ enc)) ∧
    (deployerWith f (f.bytecode ++ enc)).tx.data = some (f.bytecode ++ enc) ∧
    f.deploy params = f.deploy params := by
  refine ⟨?_, rfl, rfl⟩
  unfold ContractFactory.deploy
  rw [habi]
  dsimp only
  unfold Constructor.encode_input
  rw [henc]

/-- Witness for C2 at the concrete factory with bytecode `[170]`, the
identity token encoder and argument list `[42]`. -/
theorem C2_witness :
    exFactoryCtor.deploy [42] =
      Except.ok (deployerWith exFactoryCtor ([170] ++ [42])) ∧
    (deployerWith exFactoryCtor ([170] ++ [42])).tx.data =
      some ([170] ++ [42]) ∧
    exFactoryCtor.deploy [42] = exFactoryCtor.deploy [42] :=
  C2_deploy_payload_with_constructor exFactoryCtor exConstructor [42] [42]
    rfl rfl

/-- Claim C3: for every ABI without a constructor descriptor and every
non-empty argument list, `deploy` fails with the constructor-mismatch
error (`ContractError::ConstructorError`). The failure is synchronous
and involves no network access: the embedded `deploy` never consults the
client. -/
theorem C3_no_constructor_with_args (f : ContractFactory)
    (params : List Token) (habi : f.abi.constructor = none)
    (hne : params ≠ []) :
    f.deploy params = Except.error ContractError.ConstructorError := by
  match params, hne with
  | p :: ps, _ =>
    unfold ContractFactory.deploy
    rw [habi]
    rfl

/-- Witness for C3 at the concrete constructor-less factory and the
argument list `[7]`. -/
theorem C3_witness :
    exFactory.deploy [7] = Except.error ContractError.ConstructorError :=
  C3_no_constructor_with_args exFactory [7] rfl (by decide)

/-- Claim C4: for every ABI without a constructor descriptor and an empty
argument list, `deploy` succeeds and the transaction payload is exactly
the supplied bytecode. -/
theorem C4_no_constructor_no_args (f : ContractFactory)
    (habi : f.abi.constructor = none) :
    f.deploy [] = Except.ok (deployerWith f f.bytecode) ∧
    (deployerWith f f.bytecode).tx.data = some f.bytecode := by
  refine ⟨?_, rfl⟩
  unfold ContractFactory.deploy
  rw [habi]
  rfl

/-- Witness for C4 at the concrete constructor-less factory with
bytecode `[170]`. -/
theorem C4_witness :
    exFactory.deploy [] = Except.ok (deployerWith exFactory [170]) ∧
    (deployerWith exFactory [170]).tx.data = some [170] :=
  C4_no_constructor_no_args exFactory rfl

/-- Claim C5: whenever the polling loop obtains a receipt whose
contract-address field is absent, `send` terminates with
`ContractNotDeployed`, regardless of how many failing queries preceded
that receipt. -/
theorem C5_receipt_without_address (d : Deployer) (tx_hash k : Nat)
    (receipt : TransactionReceipt)
    (hsub : d.client.send_transaction d.tx = Except.ok tx_hash)
    (herr : ∀ j, j < k →
      d.client.get_transaction_receipt tx_hash j = Except.error ())
    (hok : d.client.get_transaction_receipt tx_hash k = Except.ok receipt)
    (hnone : receipt.contract_address = none)
    (fuel : Nat) (hfuel : k < fuel) :
    d.send fuel = some (SendEvent.submit d.tx :: pollTrace k,
      Except.error ContractError.ContractNotDeployed) := by
  have hpoll := pollForReceipt_first_success d.client tx_hash k receipt 0 fuel
    (by simpa using herr) (by simpa using hok) hfuel
  rw [hnone] at hpoll
  unfold Deployer.send
  rw [hsub]
  dsimp only
  rw [hpoll]

/-- Witness for C5: through `exClientNoAddr` the first query fails and
the second obtains a receipt without an address; `send` fails with
`ContractNotDeployed` after one sleep. -/
theorem C5_witness :
    exDeployerNoAddr.send 2 = some (SendEvent.submit exTx :: pollTrace 1,
      Except.error ContractError.ContractNotDeployed) :=
  C5_receipt_without_address exDeployerNoAddr 1 1 { contract_address := none }
    rfl
    (by
      intro j hj
      have hj0 : j = 0 := Nat.lt_one_iff.mp hj
      subst hj0
      rfl)
    rfl rfl 2 (by decide)

/-- Claim C6: two `Deployer`s identical except for their configured
confirmation count produce identical `send` behavior — the same event
trace (submission, queries, sleeps) and the same result for every
environment and every number of loop iterations; the loop stops at the
first obtained receipt independently of the confirmation count,
including zero. -/
theorem C6_confirmations_do_not_affect_send (d1 d2 : Deployer)
    (habi : d1.abi = d2.abi) (hclient : d1.client = d2.client)
    (htx : d1.tx = d2.tx) (hpoll : d1.poll_interval = d2.poll_interval)
    (fuel : Nat) :
    d1.send fuel = d2.send fuel := by
  obtain ⟨a1, c1, t1, n1, p1⟩ := d1
  obtain ⟨a2, c2, t2, n2, p2⟩ := d2
  dsimp only at habi hclient htx hpoll
  subst habi
  subst hclient
  subst htx
  subst hpoll
  rfl

/-- Witness for C6: zero configured confirmations and five configured
confirmations yield the same `send` outcome on `exDeployer`. -/
theorem C6_witness :
    (exDeployer.with_confirmations 0).send 2 =
      (exDeployer.with_confirmations 5).send 2 :=
  C6_confirmations_do_not_affect_send _ _ rfl rfl rfl rfl 2

/-- Claim C7: a failed receipt query is never surfaced by the polling
loop: if every query fails, the loop is still running after any number
of iterations (unbounded retry, each failure followed by a sleep and a
further query, as the `pollTrace` shape shows); and every terminating
run of the loop ends at its first obtained receipt, with outcome the
address of that receipt or `ContractNotDeployed` when the receipt
carries none — no other terminal outcome exists. -/
theorem C7_transient_failures_retried (client : Client) (tx_hash : Nat) :
    ((∀ i, client.get_transaction_receipt tx_hash i = Except.error ()) →
      ∀ fuel, pollForReceipt client tx_hash 0 fuel = none) ∧
    (∀ attempt fuel steps r,
      pollForReceipt client tx_hash attempt fuel = some (steps, r) →
      ∃ k receipt,
        (∀ j, j < k →
          client.get_transaction_receipt tx_hash (attempt + j) =
            Except.error ()) ∧
        client.get_transaction_receipt tx_hash (attempt + k) =
          Except.ok receipt ∧
        steps = pollTrace k ∧
        ((∃ addr, receipt.contract_address = some addr ∧
            r = Except.ok addr) ∨
          (receipt.contract_address = none ∧
            r = Except.error ContractError.ContractNotDeployed))) := by
  constructor
  · intro herr fuel
    exact pollForReceipt_all_errors client tx_hash herr fuel 0
  · intro attempt fuel steps r h
    obtain ⟨k, receipt, herr, hok, hsteps, hr⟩ :=
      pollForReceipt_inv client tx_hash fuel attempt steps r h
    refine ⟨k, receipt, herr, hok, hsteps, ?_⟩
    cases hca : receipt.contract_address with
    | none =>
      right
      exact ⟨rfl, by rw [hr, hca]⟩
    | some addr =>
      left
      exact ⟨addr, rfl, by rw [hr, hca]⟩

/-- Witness for C7: through `exClientNever` every query fails and the
loop is still running after five iterations. -/
theorem C7_witness :
    pollForReceipt exClientNever 1 0 5 = none :=
  (C7_transient_failures_retried exClientNever 1).1 (fun _ => rfl) 5

/-- Claim C8: every `Deployer` produced by `deploy` holds a transaction
whose recipient is absent; builder configuration calls never modify the
held transaction; and the transaction submitted by `send` (after any
sequence of configuration calls) also has an absent recipient. -/
theorem C8_recipient_always_absent (f : ContractFactory)
    (params : List Token) (d : Deployer)
    (hd : f.deploy params = Except.ok d) (ops : List BuilderOp) :
    d.tx.«to» = none ∧ (applyOps d ops).tx = d.tx ∧
    (∀ fuel steps r tx, (applyOps d ops).send fuel = some (steps, r) →
      SendEvent.submit tx ∈ steps → tx.«to» = none) := by
  have h1 := deploy_tx_to_none f params d hd
  have h2 := applyOps_tx ops d
  refine ⟨h1, h2, ?_⟩
  intro fuel steps r tx hs hm
  have htx := send_submit_eq (applyOps d ops) fuel steps r tx hs hm
  rw [htx, h2]
  exact h1

/-- Witness for C8 at the concrete factory, no arguments, and a
configuration sequence setting the interval and the confirmations. -/
theorem C8_witness :
    exDeployer.tx.«to» = none ∧
    (applyOps exDeployer [BuilderOp.setPollInterval 10,
      BuilderOp.setConfirmations 0]).tx = exDeployer.tx :=
  ⟨(C8_recipient_always_absent exFactory [] exDeployer rfl
      [BuilderOp.setPollInterval 10, BuilderOp.setConfirmations 0]).1,
    (C8_recipient_always_absent exFactory [] exDeployer rfl
      [BuilderOp.setPollInterval 10, BuilderOp.setConfirmations 0]).2.1⟩

/-- Claim C9: the `poll_interval` and `confirmations` setters commute:
applying them in either order yields a `Deployer` equal in every
field. -/
theorem C9_setters_commute (d : Deployer) (interval confirmations : Nat) :
    (d.with_poll_interval interval).with_confirmations confirmations =
      (d.with_confirmations confirmations).with_poll_interval interval :=
  rfl

/-- Claim C10: every sleep executed inside `send` lasts exactly
`POLL_INTERVAL` = 7000 milliseconds, whatever the `poll_interval` field
holds, and `send` never reads that field: two `Deployer`s differing only
in `poll_interval` exhibit identical `send` behavior. -/
theorem C10_sleep_constant_and_interval_unread :
    POLL_INTERVAL = 7000 ∧
    (∀ (d : Deployer) (fuel : Nat) (steps : List SendEvent)
        (r : Except ContractError Contract) (ms : Nat),
      d.send fuel = some (steps, r) → SendEvent.sleep ms ∈ steps →
      ms = POLL_INTERVAL) ∧
    (∀ (d : Deployer) (p1 p2 fuel : Nat),
      (d.with_poll_interval p1).send fuel =
        (d.with_poll_interval p2).send fuel) := by
  refine ⟨rfl, ?_, ?_⟩
  · intro d fuel steps r ms hs hm
    exact send_sleep_eq d fuel steps r ms hs hm
  · intro d p1 p2 fuel
    rfl

/-- Witness for C10: a concrete run whose trace contains a sleep shows
the sleep lasts `POLL_INTERVAL` milliseconds, and intervals 10 and 9999
yield the same `send` outcome. -/
theorem C10_witness :
    (7000 : Nat) = POLL_INTERVAL ∧
    (exDeployer.with_poll_interval 10).send 2 =
      (exDeployer.with_poll_interval 9999).send 2 :=
  ⟨C10_sleep_constant_and_interval_unread.2.1 exDeployer 2
      [SendEvent.submit exTx, SendEvent.query, SendEvent.sleep 7000,
        SendEvent.query]
      (Except.ok (Contract.new 5 exAbi exClient)) 7000 rfl (by decide),
    C10_sleep_constant_and_interval_unread.2.2 exDeployer 10 9999 2⟩
